import Mathlib

/-!
Verification of the delegate-management core of the `safes` repository
(`AddDelegate`, `GetDelegates`, `RemoveDelegate` and their CLI wrapper),
as a shallow embedding in Lean 4.

Bytes are modelled as `Nat` values (reduced mod 256 where Go byte
arithmetic can overflow).  External go-ethereum primitives that the code
calls into — `common.HexToAddress(·).Hex()` (checksum rendering),
`apitypes.TypedDataAndHash` (the EIP-712 hasher) and `crypto.Sign` — are
passed as explicit function parameters, since their code lives outside
this repository; all code of the repository itself is translated
directly.
-/

/-! ## Hex rendering and signature bytes -/

/-- Lowercase hex digit for a value below 16, as used by `common.Bytes2Hex`
(which is `hex.EncodeToString`). -/
def hexDigitLower (n : Nat) : Char :=
  if n < 10 then Char.ofNat (48 + n) else Char.ofNat (87 + n)

/-- One byte as two lowercase hex characters. -/
def byteToHexLower (b : Nat) : String :=
  String.mk [hexDigitLower (b / 16 % 16), hexDigitLower (b % 16)]

/-- `common.Bytes2Hex`: lowercase hex encoding of a byte slice, no prefix. -/
def bytesToHex (bs : List Nat) : String :=
  String.join (bs.map byteToHexLower)

/-- The recovery-id adjustment `signature[64] += 27` performed after
`crypto.Sign` (byte arithmetic, so mod 256). -/
def adjustSignature (sig : List Nat) : List Nat :=
  sig.set 64 ((sig.getD 64 0 + 27) % 256)

/-- `common.BytesToHash(b).Bytes()`: truncates to the last 32 bytes when
longer, left-pads with zero bytes when shorter. -/
def bytesToHash32 (b : List Nat) : List Nat :=
  let c := if b.length > 32 then b.drop (b.length - 32) else b
  List.replicate (32 - c.length) 0 ++ c

/-! ## Address syntax, from `common.IsHexAddress` -/

/-- Go `isHexCharacter`: an ASCII hex digit. -/
def isHexDigitChar (c : Char) : Bool :=
  (48 ≤ c.toNat && c.toNat ≤ 57) ||
  (97 ≤ c.toNat && c.toNat ≤ 102) ||
  (65 ≤ c.toNat && c.toNat ≤ 70)

/-- Go `has0xPrefix`: at least two bytes, the first `0`, the second `x`
or `X` (stated on the character list, which for these ASCII checks
coincides with the byte view Go uses). -/
def has0xPre (s : String) : Bool :=
  match s.data with
  | c0 :: c1 :: _ => c0 == '0' && (c1 == 'x' || c1 == 'X')
  | _ => false

/-- `common.IsHexAddress`: after stripping an optional 0x prefix, exactly
40 hex characters (20 bytes). -/
def isHexAddress (s : String) : Bool :=
  let t := if has0xPre s then s.data.drop 2 else s.data
  t.length == 40 && t.all isHexDigitChar

/-! ## The EIP-712 typed-data envelope (from `apitypes.TypedData`) -/

/-- One field of a struct type declaration (`apitypes.Type`). -/
structure TDField where
  name : String
  type : String
deriving DecidableEq

/-- `apitypes.TypedDataDomain` restricted to the fields the code sets. -/
structure TDDomain where
  name : String
  version : String
  chainId : Int
deriving DecidableEq

/-- `apitypes.TypedData` as populated by the code: the type table (in the
order of the Go literal), the primary type, the domain, and the message
as an association list of string fields. -/
structure TypedData where
  types : List (String × List TDField)
  primaryType : String
  domain : TDDomain
  message : List (String × String)
deriving DecidableEq

/-- The envelope built in `AddDelegate` (part_001 lines 41-63):
`checksumDelegate` is the already checksum-rendered delegate address, and
`totp` is the big-int window value rendered by `totp.String()`. -/
def addDelegateTypedData (checksumDelegate : String) (totp chainID : Int) : TypedData :=
  { types := [("EIP712Domain",
        [{ name := "name", type := "string" },
         { name := "version", type := "string" },
         { name := "chainId", type := "uint256" }]),
      ("Delegate",
        [{ name := "delegateAddress", type := "address" },
         { name := "totp", type := "uint256" }])],
    primaryType := "Delegate",
    domain := { name := "Safe Transaction Service", version := "1.0", chainId := chainID },
    message := [("delegateAddress", checksumDelegate), ("totp", toString totp)] }

/-- The envelope built in `RemoveDelegate` (part_001 lines 185-207),
written out separately because the Go code duplicates the literal. -/
def removeDelegateTypedData (checksumDelegate : String) (totp chainID : Int) : TypedData :=
  { types := [("EIP712Domain",
        [{ name := "name", type := "string" },
         { name := "version", type := "string" },
         { name := "chainId", type := "uint256" }]),
      ("Delegate",
        [{ name := "delegateAddress", type := "address" },
         { name := "totp", type := "uint256" }])],
    primaryType := "Delegate",
    domain := { name := "Safe Transaction Service", version := "1.0", chainId := chainID },
    message := [("delegateAddress", checksumDelegate), ("totp", toString totp)] }

/-! ## The signed registry requests -/

/-- Models `*keystore.Key` restricted to what the code reads from it:
`key.Address.Hex()`, the checksum-cased hex rendering of the 20-byte key
address (the rendering itself is the external library call). -/
structure KeystoreKey where
  addressHex : String
deriving DecidableEq

/-- An outgoing HTTP request with a JSON object body, recorded as the
association list the Go code marshals. -/
structure HttpRequest where
  method : String
  url : String
  body : List (String × String)
deriving DecidableEq

/-- The request-construction half of `AddDelegate` (part_001 lines 31-101):
computes the TOTP window once from the single `time.Now().Unix()` sample
`now` (Go integer division truncates, hence `Int.tdiv`), builds and hashes
the envelope, signs, adjusts the recovery byte, and assembles the JSON
payload.  `checksum` models `common.HexToAddress(·).Hex()`, `hashTyped`
models `apitypes.TypedDataAndHash`, `sign` models
`crypto.Sign(·, key.PrivateKey)`. -/
def addDelegateRequest (checksum : String → String)
    (hashTyped : TypedData → Except String (List Nat))
    (sign : List Nat → Except String (List Nat))
    (now : Int) (safeAddress delegateAddress label : String)
    (chainID : Int) (key : KeystoreKey) (apiURL : String) :
    Except String HttpRequest :=
  let totp : Int := Int.tdiv now 3600
  let checksumSafe := checksum safeAddress
  let checksumDelegate := checksum delegateAddress
  let checksumSigner := key.addressHex
  let typedData := addDelegateTypedData checksumDelegate totp chainID
  match hashTyped typedData with
  | Except.error e => Except.error ("failed to hash typed data: " ++ e)
  | Except.ok typedDataHash =>
    match sign (bytesToHash32 typedDataHash) with
    | Except.error e => Except.error ("failed to sign typed data hash: " ++ e)
    | Except.ok rawSig =>
      let signature := adjustSignature rawSig
      let senderSignature := "0x" ++ bytesToHex signature
      let payload := [("safe", checksumSafe), ("delegate", checksumDelegate),
        ("delegator", checksumSigner), ("signature", senderSignature), ("label", label)]
      Except.ok { method := "POST", url := apiURL, body := payload }

/-- Response handling of `AddDelegate` (part_001 lines 110-113): success
only on 201 Created or 200 OK, otherwise an error carrying status and
body. -/
def addDelegateHandleResponse (status : Nat) (body : String) : Except String Unit :=
  if status != 201 && status != 200 then
    Except.error ("unexpected status code: " ++ toString status ++ ", body: " ++ body)
  else
    Except.ok ()

/-- The whole of `AddDelegate`: request construction, transport (the
`client.Do` outcome is the `resp` input: either a transport error or a
status/body pair), response check. -/
def AddDelegate (checksum : String → String)
    (hashTyped : TypedData → Except String (List Nat))
    (sign : List Nat → Except String (List Nat))
    (now : Int) (safeAddress delegateAddress label : String)
    (chainID : Int) (key : KeystoreKey) (apiURL : String)
    (resp : Except String (Nat × String)) : Except String Unit :=
  match addDelegateRequest checksum hashTyped sign now safeAddress delegateAddress label
      chainID key apiURL with
  | Except.error e => Except.error e
  | Except.ok _ =>
    match resp with
    | Except.error e => Except.error ("error sending request: " ++ e)
    | Except.ok (status, body) => addDelegateHandleResponse status body

/-- The request-construction half of `RemoveDelegate` (part_001 lines
175-245): identical signing pipeline, but the payload has only `safe`,
`delegator` and `signature`, and the method is DELETE. -/
def removeDelegateRequest (checksum : String → String)
    (hashTyped : TypedData → Except String (List Nat))
    (sign : List Nat → Except String (List Nat))
    (now : Int) (safeAddress delegateAddress : String)
    (chainID : Int) (key : KeystoreKey) (apiURL : String) :
    Except String HttpRequest :=
  let totp : Int := Int.tdiv now 3600
  let checksumSafe := checksum safeAddress
  let checksumDelegate := checksum delegateAddress
  let checksumSigner := key.addressHex
  let typedData := removeDelegateTypedData checksumDelegate totp chainID
  match hashTyped typedData with
  | Except.error e => Except.error ("failed to hash typed data: " ++ e)
  | Except.ok typedDataHash =>
    match sign (bytesToHash32 typedDataHash) with
    | Except.error e => Except.error ("failed to sign SafeTxHash: " ++ e)
    | Except.ok rawSig =>
      let signature := adjustSignature rawSig
      let senderSignature := "0x" ++ bytesToHex signature
      let payload := [("safe", checksumSafe), ("delegator", checksumSigner),
        ("signature", senderSignature)]
      Except.ok { method := "DELETE", url := apiURL, body := payload }

/-- Response handling of `RemoveDelegate` (part_001 lines 253-256):
success only on 204 No Content or 200 OK. -/
def removeDelegateHandleResponse (status : Nat) (body : String) : Except String Unit :=
  if status != 204 && status != 200 then
    Except.error ("unexpected status code: " ++ toString status ++ ", body: " ++ body)
  else
    Except.ok ()

/-- The whole of `RemoveDelegate`. -/
def RemoveDelegate (checksum : String → String)
    (hashTyped : TypedData → Except String (List Nat))
    (sign : List Nat → Except String (List Nat))
    (now : Int) (safeAddress delegateAddress : String)
    (chainID : Int) (key : KeystoreKey) (apiURL : String)
    (resp : Except String (Nat × String)) : Except String Unit :=
  match removeDelegateRequest checksum hashTyped sign now safeAddress delegateAddress
      chainID key apiURL with
  | Except.error e => Except.error e
  | Except.ok _ =>
    match resp with
    | Except.error e => Except.error ("error sending request: " ++ e)
    | Except.ok (status, body) => removeDelegateHandleResponse status body

/-! ## Query-string construction, from `GetDelegates` and `url.Values` -/

/-- Uppercase hex digit, as used by `url.QueryEscape` percent-encoding. -/
def upperHexDigit (n : Nat) : Char :=
  if n < 10 then Char.ofNat (48 + n) else Char.ofNat (55 + n)

/-- UTF-8 encoding of a code point, since Go strings are byte sequences
and `url.QueryEscape` operates on bytes. -/
def utf8Bytes (c : Char) : List Nat :=
  let n := c.toNat
  if n < 128 then [n]
  else if n < 2048 then [192 + n / 64, 128 + n % 64]
  else if n < 65536 then [224 + n / 4096, 128 + n / 64 % 64, 128 + n % 64]
  else [240 + n / 262144, 128 + n / 4096 % 64, 128 + n / 64 % 64, 128 + n % 64]

/-- `url.QueryEscape` on one byte: unreserved bytes kept, space becomes
`+`, everything else percent-encoded with uppercase hex. -/
def queryEscapeByte (b : Nat) : String :=
  if (65 ≤ b && b ≤ 90) || (97 ≤ b && b ≤ 122) || (48 ≤ b && b ≤ 57) ||
      b == 45 || b == 95 || b == 46 || b == 126 then
    String.mk [Char.ofNat b]
  else if b == 32 then "+"
  else String.mk ['%', upperHexDigit (b / 16 % 16), upperHexDigit (b % 16)]

/-- `url.QueryEscape` of a string. -/
def queryEscape (s : String) : String :=
  String.join (((s.data.map utf8Bytes).flatten).map queryEscapeByte)

/-- Insertion into a key-sorted parameter list (the keys here are always
distinct, so this reproduces the sorted iteration of `Values.Encode`). -/
def insertSorted (p : String × String) : List (String × String) → List (String × String)
  | [] => [p]
  | q :: qs => if p.1 < q.1 then p :: q :: qs else q :: insertSorted p qs

/-- Sort parameters by key, as `url.Values.Encode` iterates keys in
sorted order. -/
def sortParams : List (String × String) → List (String × String)
  | [] => []
  | p :: ps => insertSorted p (sortParams ps)

/-- Join the `key=value` pieces with `&`, as `Values.Encode` does. -/
def joinAmp : List String → String
  | [] => ""
  | [x] => x
  | x :: y :: xs => x ++ "&" ++ joinAmp (y :: xs)

/-- `url.Values.Encode`: sorted keys, each piece `escape(k)=escape(v)`,
joined with `&`. -/
def encodeQuery (params : List (String × String)) : String :=
  joinAmp ((sortParams params).map (fun p => queryEscape p.1 ++ "=" ++ queryEscape p.2))

/-- The parameter list assembled by `GetDelegates` (part_001 lines
126-142): `safe` unconditionally, the string filters only when non-empty,
`limit` and `offset` only when positive, each value of `limit`/`offset`
rendered by `fmt.Sprintf` with `%d`. -/
def getDelegatesParams (safe delegate delegator label : String)
    (limit offset : Int) : List (String × String) :=
  [("safe", safe)]
  ++ (if delegate != "" then [("delegate", delegate)] else [])
  ++ (if delegator != "" then [("delegator", delegator)] else [])
  ++ (if label != "" then [("label", label)] else [])
  ++ (if limit > 0 then [("limit", toString limit)] else [])
  ++ (if offset > 0 then [("offset", toString offset)] else [])

/-- Whether a parameter with key `k` appears in a parameter list. -/
def hasParam (params : List (String × String)) (k : String) : Bool :=
  params.any (fun p => p.1 == k)

/-- The GET request constructed by `GetDelegates` (part_001 lines
121-146): the parsed `apiURL` with its `RawQuery` set to the encoded
parameters.  The `chainID` argument is kept to mirror the Go signature. -/
structure GetRequest where
  baseURL : String
  rawQuery : String
deriving DecidableEq

/-- Request construction of `GetDelegates`.  `chainID` mirrors the unused
Go parameter. -/
def getDelegatesRequestURL (safe delegate delegator label : String)
    (limit offset : Int) (chainID : Int) (apiURL : String) : GetRequest :=
  { baseURL := apiURL,
    rawQuery := encodeQuery (getDelegatesParams safe delegate delegator label limit offset) }

/-- One delegate record of the paginated response (`DelegateResponse`). -/
structure DelegateRec where
  safe : String
  delegate : String
  delegator : String
  label : String
deriving DecidableEq

/-- The paginated response envelope decoded by `GetDelegates` (part_001
lines 161-166). -/
structure DelegatesPage where
  count : Int
  next : Option String
  previous : Option String
  results : List DelegateRec
deriving DecidableEq

/-- The response half of `GetDelegates` (part_001 lines 146-172): `resp`
is the `http.Get` outcome (transport error or status/body), `parse`
models `json.Unmarshal` on the body.  On a non-200 status the error
carries the status code only (the body is not read); otherwise the
decoded `results` sequence is returned. -/
def getDelegatesHandle (resp : Except String (Nat × String))
    (parse : String → Except String DelegatesPage) :
    Except String (List DelegateRec) :=
  match resp with
  | Except.error e => Except.error ("error sending request: " ++ e)
  | Except.ok (status, body) =>
    if status != 200 then
      Except.error ("unexpected status code: " ++ toString status)
    else
      match parse body with
      | Except.error e => Except.error ("error unmarshaling response: " ++ e)
      | Except.ok page => Except.ok page.results

/-- The whole of `GetDelegates` (part_001 lines 120-173): the GET request
it constructs and the result it returns.  `chainID` mirrors the unused Go
parameter. -/
def GetDelegates (safe delegate delegator label : String)
    (limit offset : Int) (chainID : Int) (apiURL : String)
    (resp : Except String (Nat × String))
    (parse : String → Except String DelegatesPage) :
    GetRequest × Except String (List DelegateRec) :=
  (getDelegatesRequestURL safe delegate delegator label limit offset chainID apiURL,
   getDelegatesHandle resp parse)

/-- Outcome of the `delegate list` CLI command body (delegate.go lines
142-153). -/
inductive ListCmdResult where
  | cmdError (msg : String)
  | printed (lines : List String)
deriving DecidableEq

/-- The decision taken by `createListDelegatesCmd` on the `GetDelegates`
result (delegate.go lines 142-153): a retrieval error is wrapped, an
empty list is reported as "no delegates found", otherwise one line per
record is printed. -/
def listDelegatesCmdRun (delegates : Except String (List DelegateRec)) : ListCmdResult :=
  match delegates with
  | Except.error e => ListCmdResult.cmdError ("error retrieving delegates: " ++ e)
  | Except.ok ds =>
    if ds.length == 0 then
      ListCmdResult.cmdError "no delegates found"
    else
      ListCmdResult.printed (ds.map (fun d =>
        "Safe: " ++ d.safe ++ ", Delegate: " ++ d.delegate ++
        ", Delegator: " ++ d.delegator ++ ", Label: " ++ d.label))

/-! ## Helper lemmas -/

theorem strDataAppend (a b : String) : (a ++ b).data = a.data ++ b.data := rfl

theorem getDSetSelf (l : List Nat) (n a : Nat) (h : n < l.length) :
    (l.set n a).getD n 0 = a := by
  induction l generalizing n with
  | nil => simp at h
  | cons x xs ih =>
    cases n with
    | zero => rfl
    | succ m => simpa using ih m (by simpa using h)

theorem getDSetNe (l : List Nat) (n m a : Nat) (h : n ≠ m) :
    (l.set n a).getD m 0 = l.getD m 0 := by
  induction l generalizing n m with
  | nil => simp
  | cons x xs ih =>
    cases n with
    | zero => cases m with
      | zero => exact absurd rfl h
      | succ k => rfl
    | succ j => cases m with
      | zero => rfl
      | succ k => simpa using ih j k (by omega)

theorem memInsertSorted (p x : String × String) (l : List (String × String))
    (h : x ∈ l ∨ x = p) : x ∈ insertSorted p l := by
  induction l with
  | nil =>
    rcases h with h | h
    · simp at h
    · simp [insertSorted, h]
  | cons q qs ih =>
    rw [insertSorted]
    split
    · rcases h with h | h
      · exact List.mem_cons_of_mem _ h
      · simp [h]
    · rcases h with h | h
      · rcases List.mem_cons.mp h with h | h
        · simp [h]
        · exact List.mem_cons_of_mem _ (ih (Or.inl h))
      · exact List.mem_cons_of_mem _ (ih (Or.inr h))

theorem memSortParams (x : String × String) (l : List (String × String))
    (h : x ∈ l) : x ∈ sortParams l := by
  induction l with
  | nil => simp at h
  | cons p ps ih =>
    rw [sortParams]
    rcases List.mem_cons.mp h with h | h
    · exact memInsertSorted p x _ (Or.inr h)
    · exact memInsertSorted p x _ (Or.inl (ih h))

theorem dataJoinAmpSub (x : String) (xs : List String) (h : x ∈ xs) :
    x.data <:+: (joinAmp xs).data := by
  induction xs with
  | nil => simp at h
  | cons y ys ih =>
    cases ys with
    | nil =>
      rcases List.mem_cons.mp h with h | h
      · subst h; exact List.infix_rfl
      · simp at h
    | cons z zs =>
      rcases List.mem_cons.mp h with h | h
      · subst h
        refine ⟨[], ("&" ++ joinAmp (z :: zs)).data, ?_⟩
        simp [joinAmp]
      · obtain ⟨s, t, hst⟩ := ih h
        refine ⟨(y ++ "&").data ++ s, t, ?_⟩
        show _ = (y ++ "&" ++ joinAmp (z :: zs)).data
        have h2 : (y ++ "&" ++ joinAmp (z :: zs)).data
            = (y ++ "&").data ++ (joinAmp (z :: zs)).data := rfl
        rw [h2, ← hst]
        simp

theorem pieceSub (k v : String) (params : List (String × String)) (h : (k, v) ∈ params) :
    (queryEscape k ++ "=" ++ queryEscape v).data <:+: (encodeQuery params).data := by
  have h2 : (queryEscape k ++ "=" ++ queryEscape v)
      ∈ (sortParams params).map (fun p => queryEscape p.1 ++ "=" ++ queryEscape p.2) :=
    List.mem_map.mpr ⟨(k, v), memSortParams _ _ h, rfl⟩
  exact dataJoinAmpSub _ _ h2

/-! ## Claims -/

/-- C1: for every syntactically valid 20-byte delegate address, chain id
and TOTP window, the envelope built by `AddDelegate` has domain
name "Safe Transaction Service", version "1.0" and the given chain id,
primary type "Delegate", a `Delegate` type with fields
`delegateAddress:address` then `totp:uint256` in that order, and a
message holding the checksum-rendered delegate address and the decimal
rendering of the totp. -/
theorem C1_addDelegate_envelope (checksum : String → String) (delegateAddress : String)
    (totp chainID : Int) (hvalid : isHexAddress delegateAddress = true) :
    (addDelegateTypedData (checksum delegateAddress) totp chainID).domain
        = { name := "Safe Transaction Service", version := "1.0", chainId := chainID } ∧
    (addDelegateTypedData (checksum delegateAddress) totp chainID).primaryType = "Delegate" ∧
    (addDelegateTypedData (checksum delegateAddress) totp chainID).types.lookup "Delegate"
        = some [{ name := "delegateAddress", type := "address" },
          { name := "totp", type := "uint256" }] ∧
    (addDelegateTypedData (checksum delegateAddress) totp chainID).types.lookup "EIP712Domain"
        = some [{ name := "name", type := "string" },
          { name := "version", type := "string" },
          { name := "chainId", type := "uint256" }] ∧
    (addDelegateTypedData (checksum delegateAddress) totp chainID).message
        = [("delegateAddress", checksum delegateAddress), ("totp", toString totp)] :=
  ⟨rfl, rfl, rfl, rfl, rfl⟩

/-- Witness for C1 at a concrete valid address, window and chain id. -/
theorem C1_addDelegate_envelope_witness :
    isHexAddress "0x1234567890abcdef1234567890abcdef12345678" = true ∧
    (addDelegateTypedData ((fun s => s) "0x1234567890abcdef1234567890abcdef12345678")
        481481 1337).primaryType = "Delegate" :=
  ⟨by decide,
   (C1_addDelegate_envelope (fun s => s) "0x1234567890abcdef1234567890abcdef12345678"
      481481 1337 (by decide)).2.1⟩

/-- C9: `RemoveDelegate` builds exactly the same typed-data envelope as
`AddDelegate` for the same checksummed delegate address, TOTP window and
chain id, hence any hashing function gives the two operations equal
signed digests. -/
theorem C9_remove_add_same_envelope (checksumDelegate : String) (totp chainID : Int)
    (hashTyped : TypedData → Except String (List Nat)) :
    removeDelegateTypedData checksumDelegate totp chainID
        = addDelegateTypedData checksumDelegate totp chainID ∧
    hashTyped (removeDelegateTypedData checksumDelegate totp chainID)
        = hashTyped (addDelegateTypedData checksumDelegate totp chainID) :=
  ⟨rfl, rfl⟩

/-- C10: `GetDelegates` never reads its chainID parameter: two calls
differing only in chainID construct the same request (base URL and query
string) and return the same result sequence. -/
theorem C10_chainID_not_read (safe delegate delegator label : String) (limit offset : Int)
    (chainID1 chainID2 : Int) (apiURL : String) (resp : Except String (Nat × String))
    (parse : String → Except String DelegatesPage) :
    GetDelegates safe delegate delegator label limit offset chainID1 apiURL resp parse
      = GetDelegates safe delegate delegator label limit offset chainID2 apiURL resp parse :=
  rfl

/-- C7 counterexample: on the list operation a 400 response with body
"bad signature" produces the error "unexpected status code: 400", which
does not carry the response body, refuting the claim that every
operation includes the raw body in its non-success error. -/
theorem C7_counterexample :
    (GetDelegates "0xsafe" "" "" "" 0 0 1 "https://example.invalid/api"
        (Except.ok (400, "bad signature"))
        (fun _ => Except.ok { count := 0, next := none, previous := none, results := [] })).2
      = Except.error "unexpected status code: 400" ∧
    ¬ ("bad signature".data <:+: "unexpected status code: 400".data) := by
  constructor
  · rfl
  · decide

/-- C7 (amended): on a non-success status, Add and Remove produce an
error carrying the status code and the raw body verbatim, while List
produces an error carrying the status code only (its body is not read);
in all three cases the failure is an error, never silently swallowed. -/
theorem C7_amended_error_reporting (status : Nat) (body : String)
    (parse : String → Except String DelegatesPage) (h200 : status ≠ 200) :
    (status ≠ 201 → addDelegateHandleResponse status body
        = Except.error ("unexpected status code: " ++ toString status ++ ", body: " ++ body)) ∧
    (status ≠ 204 → removeDelegateHandleResponse status body
        = Except.error ("unexpected status code: " ++ toString status ++ ", body: " ++ body)) ∧
    getDelegatesHandle (Except.ok (status, body)) parse
        = Except.error ("unexpected status code: " ++ toString status) := by
  refine ⟨fun h201 => ?_, fun h204 => ?_, ?_⟩
  · unfold addDelegateHandleResponse
    rw [if_pos]
    simp [h200, h201]
  · unfold removeDelegateHandleResponse
    rw [if_pos]
    simp [h200, h204]
  · simp only [getDelegatesHandle]
    rw [if_pos (by simpa using h200)]

/-- Witness for the amended C7 at status 400 with body "bad signature". -/
theorem C7_amended_error_reporting_witness :
    addDelegateHandleResponse 400 "bad signature"
        = Except.error ("unexpected status code: " ++ toString (400 : Nat)
            ++ ", body: " ++ "bad signature") ∧
    getDelegatesHandle (Except.ok (400, "bad signature"))
        (fun _ => Except.ok { count := 0, next := none, previous := none, results := [] })
      = Except.error ("unexpected status code: " ++ toString (400 : Nat)) :=
  ⟨(C7_amended_error_reporting 400 "bad signature"
      (fun _ => Except.ok { count := 0, next := none, previous := none, results := [] })
      (by decide)).1 (by decide),
   (C7_amended_error_reporting 400 "bad signature"
      (fun _ => Except.ok { count := 0, next := none, previous := none, results := [] })
      (by decide)).2.2⟩

/-- C8: a registry response with count 0 and empty results makes
`GetDelegates` itself succeed with the empty sequence (the call is not a
failure), and the list command then reports exactly "no delegates
found", a report distinct from every retrieval-failure report. -/
theorem C8_empty_results (safe delegate delegator label : String) (limit offset chainID : Int)
    (apiURL body : String) (parse : String → Except String DelegatesPage)
    (hparse : parse body
        = Except.ok { count := 0, next := none, previous := none, results := [] }) :
    (GetDelegates safe delegate delegator label limit offset chainID apiURL
        (Except.ok (200, body)) parse).2 = Except.ok [] ∧
    listDelegatesCmdRun (GetDelegates safe delegate delegator label limit offset chainID apiURL
        (Except.ok (200, body)) parse).2 = ListCmdResult.cmdError "no delegates found" ∧
    (∀ e, listDelegatesCmdRun (Except.error e) ≠ ListCmdResult.cmdError "no delegates found") := by
  have h1 : (GetDelegates safe delegate delegator label limit offset chainID apiURL
      (Except.ok (200, body)) parse).2 = Except.ok [] := by
    simp only [GetDelegates]
    unfold getDelegatesHandle
    simp [hparse]
  refine ⟨h1, ?_, ?_⟩
  · rw [h1]; rfl
  · intro e h
    have h2 : ("error retrieving delegates: " ++ e) = "no delegates found" := by
      simpa [listDelegatesCmdRun] using h
    have h3 := congrArg String.length h2
    rw [String.length_append] at h3
    have h4 : "error retrieving delegates: ".length = 28 := rfl
    have h5 : "no delegates found".length = 18 := rfl
    omega

/-- Witness for C8 at a concrete empty-page response. -/
theorem C8_empty_results_witness :
    listDelegatesCmdRun (GetDelegates "0xsafe" "" "" "" 0 0 1 "https://example.invalid/api"
        (Except.ok (200, "empty"))
        (fun _ => Except.ok { count := 0, next := none, previous := none, results := [] })).2
      = ListCmdResult.cmdError "no delegates found" :=
  (C8_empty_results "0xsafe" "" "" "" 0 0 1 "https://example.invalid/api" "empty"
    (fun _ => Except.ok { count := 0, next := none, previous := none, results := [] })
    rfl).2.1

/-- C2: assuming the library contract of `crypto.Sign` (a 65-byte
signature whose recovery byte at offset 64 is 0 or 1), the adjustment
performed by both `AddDelegate` and `RemoveDelegate` keeps the length at
65 bytes, adds 27 to the byte at offset 64 (making it 27 or 28), leaves
the first 64 bytes unchanged, and both operations transmit exactly
`0x` followed by the hex encoding of the adjusted signature. -/
theorem C2_signature_form (checksum : String → String)
    (hashTyped : TypedData → Except String (List Nat))
    (sign : List Nat → Except String (List Nat))
    (now : Int) (safeAddress delegateAddress label : String)
    (chainID : Int) (key : KeystoreKey) (apiURL : String)
    (dg sg : List Nat)
    (hlen : sg.length = 65)
    (hv : sg.getD 64 0 = 0 ∨ sg.getD 64 0 = 1)
    (htA : hashTyped (addDelegateTypedData (checksum delegateAddress)
        (Int.tdiv now 3600) chainID) = Except.ok dg)
    (hsg : sign (bytesToHash32 dg) = Except.ok sg) :
    (adjustSignature sg).length = 65 ∧
    (adjustSignature sg).getD 64 0 = sg.getD 64 0 + 27 ∧
    ((adjustSignature sg).getD 64 0 = 27 ∨ (adjustSignature sg).getD 64 0 = 28) ∧
    (∀ i, i < 64 → (adjustSignature sg).getD i 0 = sg.getD i 0) ∧
    addDelegateRequest checksum hashTyped sign now safeAddress delegateAddress label
        chainID key apiURL
      = Except.ok ⟨"POST", apiURL,
          [("safe", checksum safeAddress), ("delegate", checksum delegateAddress),
           ("delegator", key.addressHex),
           ("signature", "0x" ++ bytesToHex (adjustSignature sg)), ("label", label)]⟩ ∧
    removeDelegateRequest checksum hashTyped sign now safeAddress delegateAddress
        chainID key apiURL
      = Except.ok ⟨"DELETE", apiURL,
          [("safe", checksum safeAddress), ("delegator", key.addressHex),
           ("signature", "0x" ++ bytesToHex (adjustSignature sg))]⟩ := by
  have hlt : 64 < sg.length := by omega
  have hgetD : (adjustSignature sg).getD 64 0 = (sg.getD 64 0 + 27) % 256 :=
    getDSetSelf sg 64 _ hlt
  have hmod : (sg.getD 64 0 + 27) % 256 = sg.getD 64 0 + 27 := by
    rcases hv with h | h <;> rw [h]
  have htR : hashTyped (removeDelegateTypedData (checksum delegateAddress)
      (Int.tdiv now 3600) chainID) = Except.ok dg := htA
  refine ⟨by simp [adjustSignature, hlen], by rw [hgetD, hmod], ?_, ?_, ?_, ?_⟩
  · rcases hv with h | h
    · left; rw [hgetD, hmod, h]
    · right; rw [hgetD, hmod, h]
  · intro i hi
    exact getDSetNe sg 64 i _ (by omega)
  · simp only [addDelegateRequest, htA, hsg]
  · simp only [removeDelegateRequest, htR, hsg]

/-- Witness for C2 at a concrete signature with recovery byte 1. -/
theorem C2_signature_form_witness :
    (adjustSignature (List.replicate 64 2 ++ [1])).getD 64 0 = 27 ∨
    (adjustSignature (List.replicate 64 2 ++ [1])).getD 64 0 = 28 :=
  (C2_signature_form (fun s => s) (fun _ => Except.ok [7]) (fun _ => Except.ok
      (List.replicate 64 2 ++ [1])) 7200 "0xa" "0xb" "lbl" 1 ⟨"0xk"⟩ "u"
    [7] (List.replicate 64 2 ++ [1]) (by decide) (Or.inr (by decide))
    rfl rfl).2.2.1

/-- C3: with a single `time.Now().Unix()` sample `now` taken at the start
of the call, the signing nonce is `now` divided by 3600 (Go truncating
division, which on the nonnegative times of a real call equals floor
division); that one value is embedded in the signed message, and the
whole outgoing request — for Add and for Remove — is determined by the
envelope carrying it, with no second time sample anywhere. -/
theorem C3_totp_once (checksum : String → String)
    (hashTyped : TypedData → Except String (List Nat))
    (sign : List Nat → Except String (List Nat))
    (now : Int) (safeAddress delegateAddress label : String)
    (chainID : Int) (key : KeystoreKey) (apiURL : String)
    (dg sg : List Nat)
    (hnow : 0 ≤ now)
    (htA : hashTyped (addDelegateTypedData (checksum delegateAddress)
        (Int.tdiv now 3600) chainID) = Except.ok dg)
    (hsg : sign (bytesToHash32 dg) = Except.ok sg) :
    Int.tdiv now 3600 = Int.fdiv now 3600 ∧
    (addDelegateTypedData (checksum delegateAddress) (Int.tdiv now 3600) chainID).message.lookup
        "totp" = some (toString (Int.tdiv now 3600)) ∧
    addDelegateRequest checksum hashTyped sign now safeAddress delegateAddress label
        chainID key apiURL
      = Except.ok ⟨"POST", apiURL,
          [("safe", checksum safeAddress), ("delegate", checksum delegateAddress),
           ("delegator", key.addressHex),
           ("signature", "0x" ++ bytesToHex (adjustSignature sg)), ("label", label)]⟩ ∧
    removeDelegateRequest checksum hashTyped sign now safeAddress delegateAddress
        chainID key apiURL
      = Except.ok ⟨"DELETE", apiURL,
          [("safe", checksum safeAddress), ("delegator", key.addressHex),
           ("signature", "0x" ++ bytesToHex (adjustSignature sg))]⟩ := by
  have htR : hashTyped (removeDelegateTypedData (checksum delegateAddress)
      (Int.tdiv now 3600) chainID) = Except.ok dg := htA
  refine ⟨(Int.fdiv_eq_tdiv hnow (by decide)).symm, rfl, ?_, ?_⟩
  · simp only [addDelegateRequest, htA, hsg]
  · simp only [removeDelegateRequest, htR, hsg]

/-- Witness for C3 at the concrete time 7201 (window 2). -/
theorem C3_totp_once_witness :
    Int.tdiv 7201 3600 = Int.fdiv 7201 3600 ∧
    (addDelegateTypedData ((fun s => s) "0xb") (Int.tdiv 7201 3600) 1).message.lookup
        "totp" = some (toString (Int.tdiv (7201 : Int) 3600)) :=
  ⟨(C3_totp_once (fun s => s) (fun _ => Except.ok [7])
      (fun _ => Except.ok (List.replicate 64 2 ++ [1])) 7201 "0xa" "0xb" "lbl" 1
      ⟨"0xk"⟩ "u" [7] (List.replicate 64 2 ++ [1]) (by decide) rfl rfl).1,
   (C3_totp_once (fun s => s) (fun _ => Except.ok [7])
      (fun _ => Except.ok (List.replicate 64 2 ++ [1])) 7201 "0xa" "0xb" "lbl" 1
      ⟨"0xk"⟩ "u" [7] (List.replicate 64 2 ++ [1]) (by decide) rfl rfl).2.1⟩

/-- C4: `AddDelegate` POSTs a JSON body with exactly the five string
fields safe, delegate, delegator, signature and label — delegator being
the checksum rendering of the key address and signature being `0x` plus
the hex signature — and succeeds exactly on status 200 or 201, any other
status yielding an error carrying the status code and the body verbatim. -/
theorem C4_addDelegate_payload_and_status (checksum : String → String)
    (hashTyped : TypedData → Except String (List Nat))
    (sign : List Nat → Except String (List Nat))
    (now : Int) (safeAddress delegateAddress label : String)
    (chainID : Int) (key : KeystoreKey) (apiURL : String)
    (dg sg : List Nat)
    (htA : hashTyped (addDelegateTypedData (checksum delegateAddress)
        (Int.tdiv now 3600) chainID) = Except.ok dg)
    (hsg : sign (bytesToHash32 dg) = Except.ok sg) :
    addDelegateRequest checksum hashTyped sign now safeAddress delegateAddress label
        chainID key apiURL
      = Except.ok ⟨"POST", apiURL,
          [("safe", checksum safeAddress), ("delegate", checksum delegateAddress),
           ("delegator", key.addressHex),
           ("signature", "0x" ++ bytesToHex (adjustSignature sg)), ("label", label)]⟩ ∧
    (addDelegateRequest checksum hashTyped sign now safeAddress delegateAddress label
        chainID key apiURL).map (fun r => r.body.map Prod.fst)
      = Except.ok ["safe", "delegate", "delegator", "signature", "label"] ∧
    (∀ status body, AddDelegate checksum hashTyped sign now safeAddress delegateAddress
        label chainID key apiURL (Except.ok (status, body)) = Except.ok ()
      ↔ (status = 200 ∨ status = 201)) ∧
    (∀ status body, status ≠ 200 → status ≠ 201 →
      AddDelegate checksum hashTyped sign now safeAddress delegateAddress label
          chainID key apiURL (Except.ok (status, body))
        = Except.error ("unexpected status code: " ++ toString status
            ++ ", body: " ++ body)) := by
  have hreq : addDelegateRequest checksum hashTyped sign now safeAddress delegateAddress
      label chainID key apiURL
    = Except.ok ⟨"POST", apiURL,
        [("safe", checksum safeAddress), ("delegate", checksum delegateAddress),
         ("delegator", key.addressHex),
         ("signature", "0x" ++ bytesToHex (adjustSignature sg)), ("label", label)]⟩ := by
    simp only [addDelegateRequest, htA, hsg]
  have hAD : ∀ status body, AddDelegate checksum hashTyped sign now safeAddress
      delegateAddress label chainID key apiURL (Except.ok (status, body))
      = addDelegateHandleResponse status body := by
    intro status body
    simp only [AddDelegate, hreq]
  refine ⟨hreq, by rw [hreq]; rfl, ?_, ?_⟩
  · intro status body
    rw [hAD]
    unfold addDelegateHandleResponse
    split
    · rename_i h
      simp at h
      simp
      omega
    · rename_i h
      simp at h
      simp
      omega
  · intro status body h200 h201
    rw [hAD]
    unfold addDelegateHandleResponse
    rw [if_pos]
    simp [h200, h201]

/-- Witness for C4 at status 400. -/
theorem C4_addDelegate_payload_and_status_witness :
    AddDelegate (fun s => s) (fun _ => Except.ok [7])
        (fun _ => Except.ok (List.replicate 64 2 ++ [1])) 7200 "0xa" "0xb" "lbl" 1
        ⟨"0xk"⟩ "u" (Except.ok (400, "bad"))
      = Except.error ("unexpected status code: " ++ toString (400 : Nat)
          ++ ", body: " ++ "bad") :=
  (C4_addDelegate_payload_and_status (fun s => s) (fun _ => Except.ok [7])
      (fun _ => Except.ok (List.replicate 64 2 ++ [1])) 7200 "0xa" "0xb" "lbl" 1
      ⟨"0xk"⟩ "u" [7] (List.replicate 64 2 ++ [1]) rfl rfl).2.2.2
    400 "bad" (by decide) (by decide)

/-- C5: `RemoveDelegate` sends a DELETE whose JSON body has exactly the
fields safe, delegator and signature — no delegate and no label field —
and succeeds exactly on status 200 or 204, any other status yielding an
error carrying the status code and the body. -/
theorem C5_removeDelegate_payload_and_status (checksum : String → String)
    (hashTyped : TypedData → Except String (List Nat))
    (sign : List Nat → Except String (List Nat))
    (now : Int) (safeAddress delegateAddress : String)
    (chainID : Int) (key : KeystoreKey) (apiURL : String)
    (dg sg : List Nat)
    (htR : hashTyped (removeDelegateTypedData (checksum delegateAddress)
        (Int.tdiv now 3600) chainID) = Except.ok dg)
    (hsg : sign (bytesToHash32 dg) = Except.ok sg) :
    removeDelegateRequest checksum hashTyped sign now safeAddress delegateAddress
        chainID key apiURL
      = Except.ok ⟨"DELETE", apiURL,
          [("safe", checksum safeAddress), ("delegator", key.addressHex),
           ("signature", "0x" ++ bytesToHex (adjustSignature sg))]⟩ ∧
    (removeDelegateRequest checksum hashTyped sign now safeAddress delegateAddress
        chainID key apiURL).map (fun r => r.body.map Prod.fst)
      = Except.ok ["safe", "delegator", "signature"] ∧
    (∀ r, removeDelegateRequest checksum hashTyped sign now safeAddress delegateAddress
        chainID key apiURL = Except.ok r →
      hasParam r.body "delegate" = false ∧ hasParam r.body "label" = false) ∧
    (∀ status body, RemoveDelegate checksum hashTyped sign now safeAddress
        delegateAddress chainID key apiURL (Except.ok (status, body)) = Except.ok ()
      ↔ (status = 200 ∨ status = 204)) ∧
    (∀ status body, status ≠ 200 → status ≠ 204 →
      RemoveDelegate checksum hashTyped sign now safeAddress delegateAddress
          chainID key apiURL (Except.ok (status, body))
        = Except.error ("unexpected status code: " ++ toString status
            ++ ", body: " ++ body)) := by
  have hreq : removeDelegateRequest checksum hashTyped sign now safeAddress
      delegateAddress chainID key apiURL
    = Except.ok ⟨"DELETE", apiURL,
        [("safe", checksum safeAddress), ("delegator", key.addressHex),
         ("signature", "0x" ++ bytesToHex (adjustSignature sg))]⟩ := by
    simp only [removeDelegateRequest, htR, hsg]
  have hRD : ∀ status body, RemoveDelegate checksum hashTyped sign now safeAddress
      delegateAddress chainID key apiURL (Except.ok (status, body))
      = removeDelegateHandleResponse status body := by
    intro status body
    simp only [RemoveDelegate, hreq]
  refine ⟨hreq, by rw [hreq]; rfl, ?_, ?_, ?_⟩
  · intro r hr
    rw [hreq] at hr
    cases hr
    constructor <;> rfl
  · intro status body
    rw [hRD]
    unfold removeDelegateHandleResponse
    split
    · rename_i h
      simp at h
      simp
      omega
    · rename_i h
      simp at h
      simp
      omega
  · intro status body h200 h204
    rw [hRD]
    unfold removeDelegateHandleResponse
    rw [if_pos]
    simp [h200, h204]

/-- Witness for C5 at statuses 204 and 400. -/
theorem C5_removeDelegate_payload_and_status_witness :
    RemoveDelegate (fun s => s) (fun _ => Except.ok [7])
        (fun _ => Except.ok (List.replicate 64 2 ++ [1])) 7200 "0xa" "0xb" 1
        ⟨"0xk"⟩ "u" (Except.ok (204, "")) = Except.ok () ∧
    RemoveDelegate (fun s => s) (fun _ => Except.ok [7])
        (fun _ => Except.ok (List.replicate 64 2 ++ [1])) 7200 "0xa" "0xb" 1
        ⟨"0xk"⟩ "u" (Except.ok (400, "bad"))
      = Except.error ("unexpected status code: " ++ toString (400 : Nat)
          ++ ", body: " ++ "bad") :=
  ⟨((C5_removeDelegate_payload_and_status (fun s => s) (fun _ => Except.ok [7])
      (fun _ => Except.ok (List.replicate 64 2 ++ [1])) 7200 "0xa" "0xb" 1
      ⟨"0xk"⟩ "u" [7] (List.replicate 64 2 ++ [1]) rfl rfl).2.2.2.1
    204 "").mpr (Or.inr rfl),
   (C5_removeDelegate_payload_and_status (fun s => s) (fun _ => Except.ok [7])
      (fun _ => Except.ok (List.replicate 64 2 ++ [1])) 7200 "0xa" "0xb" 1
      ⟨"0xk"⟩ "u" [7] (List.replicate 64 2 ++ [1]) rfl rfl).2.2.2.2
    400 "bad" (by decide) (by decide)⟩

/-- C6: the outgoing query string of the list operation always contains
the safe parameter; delegate, delegator and label appear exactly when
non-empty (an empty string is never sent); limit and offset appear only
when non-zero — with limit 0 and offset 0 both are omitted, and with
limit 5 the encoded query string contains the text `limit=5`. -/
theorem C6_listDelegates_query (safe delegate delegator label : String)
    (limit offset : Int) :
    hasParam (getDelegatesParams safe delegate delegator label limit offset) "safe" = true ∧
    "safe=".data <:+:
      (encodeQuery (getDelegatesParams safe delegate delegator label limit offset)).data ∧
    (hasParam (getDelegatesParams safe delegate delegator label limit offset) "delegate"
        = true ↔ delegate ≠ "") ∧
    (hasParam (getDelegatesParams safe delegate delegator label limit offset) "delegator"
        = true ↔ delegator ≠ "") ∧
    (hasParam (getDelegatesParams safe delegate delegator label limit offset) "label"
        = true ↔ label ≠ "") ∧
    (hasParam (getDelegatesParams safe delegate delegator label limit offset) "limit"
        = true → limit ≠ 0) ∧
    (limit = 0 → hasParam (getDelegatesParams safe delegate delegator label limit offset)
        "limit" = false) ∧
    (hasParam (getDelegatesParams safe delegate delegator label limit offset) "offset"
        = true → offset ≠ 0) ∧
    (offset = 0 → hasParam (getDelegatesParams safe delegate delegator label limit offset)
        "offset" = false) ∧
    (limit = 5 → "limit=5".data <:+:
      (encodeQuery (getDelegatesParams safe delegate delegator label limit offset)).data) := by
  have hlim : hasParam (getDelegatesParams safe delegate delegator label limit offset)
      "limit" = true ↔ limit > 0 := by
    by_cases hl : limit > 0 <;>
      simp [getDelegatesParams, hasParam, hl]
  have hoff : hasParam (getDelegatesParams safe delegate delegator label limit offset)
      "offset" = true ↔ offset > 0 := by
    by_cases ho : offset > 0 <;>
      simp [getDelegatesParams, hasParam, ho]
  refine ⟨?_, ?_, ?_, ?_, ?_, ?_, ?_, ?_, ?_, ?_⟩
  · simp [getDelegatesParams, hasParam]
  · have hmem : ("safe", safe)
        ∈ getDelegatesParams safe delegate delegator label limit offset := by
      unfold getDelegatesParams
      exact List.mem_append_left _ (List.mem_append_left _ (List.mem_append_left _
        (List.mem_append_left _ (List.mem_append_left _ (List.mem_singleton_self _)))))
    have hp := pieceSub "safe" safe _ hmem
    have hq : queryEscape "safe" = "safe" := by decide
    have heq : (queryEscape "safe" ++ "=" ++ queryEscape safe).data
        = "safe=".data ++ (queryEscape safe).data := by
      rw [hq, strDataAppend]
      congr 1
    rw [heq] at hp
    exact List.IsInfix.trans ⟨[], (queryEscape safe).data, by simp⟩ hp
  · by_cases hd : delegate = "" <;>
      simp [getDelegatesParams, hasParam, hd]
  · by_cases hd : delegator = "" <;>
      simp [getDelegatesParams, hasParam, hd]
  · by_cases hd : label = "" <;>
      simp [getDelegatesParams, hasParam, hd]
  · intro h
    have := hlim.mp h
    omega
  · intro h0
    cases hcase : hasParam (getDelegatesParams safe delegate delegator label limit offset)
        "limit"
    · rfl
    · exact absurd (hlim.mp hcase) (by omega)
  · intro h
    have := hoff.mp h
    omega
  · intro h0
    cases hcase : hasParam (getDelegatesParams safe delegate delegator label limit offset)
        "offset"
    · rfl
    · exact absurd (hoff.mp hcase) (by omega)
  · intro h5
    subst h5
    have hmem : ("limit", toString (5 : Int))
        ∈ getDelegatesParams safe delegate delegator label 5 offset := by
      unfold getDelegatesParams
      refine List.mem_append_left _ (List.mem_append_right _ ?_)
      rw [if_pos (by decide : (5 : Int) > 0)]
      exact List.mem_singleton_self _
    have hp := pieceSub "limit" (toString (5 : Int)) _ hmem
    have heq : (queryEscape "limit" ++ "=" ++ queryEscape (toString (5 : Int))).data
        = "limit=5".data := by decide
    rw [heq] at hp
    exact hp

/-- Witness for C6 at safe 0xabc, empty filters, limit 5, offset 0. -/
theorem C6_listDelegates_query_witness :
    ("limit=5".data <:+: (encodeQuery (getDelegatesParams "0xabc" "" "" "" 5 0)).data) ∧
    hasParam (getDelegatesParams "0xabc" "" "" "" 5 0) "offset" = false :=
  ⟨(C6_listDelegates_query "0xabc" "" "" "" 5 0).2.2.2.2.2.2.2.2.2 rfl,
   (C6_listDelegates_query "0xabc" "" "" "" 5 0).2.2.2.2.2.2.2.2.1 rfl⟩
